import Mathlib

/-
Verification of the b48_display_controller ESPHome binding
(src/__init__.py) and of the Scheduler selection rules of its core.

Embedding floor: configuration values are modelled already typed
(integer, string, boolean, component reference).  The scalar coercions
that the host configuration language performs while parsing YAML
scalars (for example, cv.string stringifying a numeric scalar, or
cv.int_ parsing a numeric string) are below the floor of this model.
Range bounds and required/optional/default structure of the schema are
modelled exactly.  Note that ESPHome defines cv.positive_int as
int_range(min=0): the value 0 is accepted by it.

The generated ID key (cv.GenerateID) and the COMPONENT_SCHEMA keys it
is extended with are host-framework plumbing and are not modelled; the
raw-configuration key space covers the ten explicit keys of
CONFIG_SCHEMA plus min_seconds_between_repeats (absent from the
schema, so a configuration supplying it is rejected as an extra key,
per the Schema default of preventing unknown keys).
-/

/-- A typed configuration value: integer, string, boolean, or a
reference to another declared component (what cv.use_id resolves). -/
inductive Value where
  | int (n : Int)
  | str (s : String)
  | boolean (b : Bool)
  | ref (id : Nat)
deriving DecidableEq

/-- The configuration keys relevant to the binding: the ten explicit
keys of CONFIG_SCHEMA, plus min_seconds_between_repeats, which the
spec lists as a construction parameter but the schema does not
declare. -/
inductive ConfKey where
  | uart_id
  | database_path
  | transition_duration
  | time_sync_interval
  | emergency_priority_threshold
  | run_tests_on_startup
  | wipe_database_on_boot
  | display_enable_pin
  | message_queue_size_sensor
  | last_message_sensor
  | min_seconds_between_repeats
deriving DecidableEq

/-- A raw (pre-validation) configuration: a partial assignment of
values to keys. -/
def RawConfig : Type := ConfKey → Option Value

/-- cv.use_id: accepts a reference to a declared component. -/
def cv_use_id : Value → Option Nat
  | Value.ref n => some n
  | _ => none

/-- cv.string: accepts a string value (typed floor; host-language
scalar coercion not modelled). -/
def cv_string : Value → Option String
  | Value.str s => some s
  | _ => none

/-- cv.boolean: accepts a boolean value. -/
def cv_boolean : Value → Option Bool
  | Value.boolean b => some b
  | _ => none

/-- cv.int_range(min=lo, max=hi): accepts an integer n with
lo ≤ n ≤ hi, returned unchanged. -/
def cv_int_range (lo hi : Int) : Value → Option Int
  | Value.int n => if lo ≤ n ∧ n ≤ hi then some n else none
  | _ => none

/-- cv.positive_int: ESPHome defines this as int_range(min=0), so it
accepts every integer n with 0 ≤ n, including 0 (ESPHome reserves
positive_not_null_int for the strictly positive range). -/
def cv_positive_int : Value → Option Int
  | Value.int n => if 0 ≤ n then some n else none
  | _ => none

/-- cv.Required(k): the key must be present and its value must pass
the validator. -/
def reqField {α : Type} (val : Value → Option α) : Option Value → Option α
  | none => none
  | some v => val v

/-- cv.Optional(k, default=d): an absent key is filled with the
default; a present value must pass the validator. -/
def optFieldD {α : Type} (val : Value → Option α) (d : α) : Option Value → Option α
  | none => some d
  | some v => val v

/-- cv.Optional(k) with no default: an absent key stays absent; a
present value must pass the validator. -/
def optField {α : Type} (val : Value → Option α) : Option Value → Option (Option α)
  | none => some none
  | some v => (val v).map some

/-- The validated configuration, with one typed field per key of
CONFIG_SCHEMA. -/
structure Config where
  uart_id : Nat
  database_path : String
  transition_duration : Int
  time_sync_interval : Int
  emergency_priority_threshold : Int
  run_tests_on_startup : Bool
  wipe_database_on_boot : Bool
  display_enable_pin : Option Int
  message_queue_size_sensor : Option Nat
  last_message_sensor : Option Nat
deriving DecidableEq

/-- CONFIG_SCHEMA validation (src/__init__.py lines 28-41):
uart_id and database_path are required; transition_duration (default
4) and time_sync_interval (default 60) use cv.positive_int;
emergency_priority_threshold uses cv.int_range(0, 100) with default
95; run_tests_on_startup and wipe_database_on_boot are booleans
defaulting to False; display_enable_pin is optional with no default,
cv.int_range(0, 39); the two sensor keys are optional component
references with no default.  A configuration supplying the unknown key
min_seconds_between_repeats is rejected (Schema prevents extra
keys). -/
def validate (r : RawConfig) : Option Config :=
  match r ConfKey.min_seconds_between_repeats with
  | some _ => none
  | none =>
    Option.bind (reqField cv_use_id (r ConfKey.uart_id)) fun u =>
    Option.bind (reqField cv_string (r ConfKey.database_path)) fun dbp =>
    Option.bind (optFieldD cv_positive_int 4 (r ConfKey.transition_duration)) fun td =>
    Option.bind (optFieldD cv_positive_int 60 (r ConfKey.time_sync_interval)) fun tsi =>
    Option.bind (optFieldD (cv_int_range 0 100) 95 (r ConfKey.emergency_priority_threshold)) fun ept =>
    Option.bind (optFieldD cv_boolean false (r ConfKey.run_tests_on_startup)) fun rts =>
    Option.bind (optFieldD cv_boolean false (r ConfKey.wipe_database_on_boot)) fun wdb =>
    Option.bind (optField (cv_int_range 0 39) (r ConfKey.display_enable_pin)) fun dep =>
    Option.bind (optField cv_use_id (r ConfKey.message_queue_size_sensor)) fun mqs =>
    Option.bind (optField cv_use_id (r ConfKey.last_message_sensor)) fun lms =>
    some { uart_id := u, database_path := dbp, transition_duration := td,
           time_sync_interval := tsi, emergency_priority_threshold := ept,
           run_tests_on_startup := rts, wipe_database_on_boot := wdb,
           display_enable_pin := dep, message_queue_size_sensor := mqs,
           last_message_sensor := lms }

/-- One code-generation effect of to_code: registering the component,
a cg.add(var.set_<name>(<arg>)) call, or the add_library call. -/
inductive CGCall where
  | registerComponent
  | add (setter : String) (arg : Value)
  | addLibrary (libname repo version : String)
deriving DecidableEq

/-- Calls emitted by to_code for the display_enable_pin key: the
setter runs only if the key was present (src/__init__.py lines
61-62). -/
def depCalls : Option Int → List CGCall
  | some p => [CGCall.add "set_display_enable_pin" (Value.int p)]
  | none => []

/-- Calls emitted by to_code for the message_queue_size_sensor key:
the resolved sensor is passed only if the key was present
(src/__init__.py lines 65-67).  No analogous block exists for
last_message_sensor. -/
def mqsCalls : Option Nat → List CGCall
  | some s => [CGCall.add "set_message_queue_size_sensor" (Value.ref s)]
  | none => []

/-- to_code (src/__init__.py lines 43-73): registers the component,
sets the resolved UART device, forwards the scalar configuration
values in source order, conditionally forwards display_enable_pin and
message_queue_size_sensor, and declares the Sqlite3Esp32 library.
Nothing forwards last_message_sensor. -/
def toCode (c : Config) : List CGCall :=
  CGCall.registerComponent ::
  CGCall.add "set_uart" (Value.ref c.uart_id) ::
  CGCall.add "set_database_path" (Value.str c.database_path) ::
  CGCall.add "set_transition_duration" (Value.int c.transition_duration) ::
  CGCall.add "set_time_sync_interval" (Value.int c.time_sync_interval) ::
  CGCall.add "set_emergency_priority_threshold" (Value.int c.emergency_priority_threshold) ::
  CGCall.add "set_run_tests_on_startup" (Value.boolean c.run_tests_on_startup) ::
  CGCall.add "set_wipe_database_on_boot" (Value.boolean c.wipe_database_on_boot) ::
  (depCalls c.display_enable_pin ++ mqsCalls c.message_queue_size_sensor ++
   [CGCall.addLibrary "Sqlite3Esp32"
     "https://github.com/siara-cc/esp32_arduino_sqlite3_lib.git" "2.5.0"])

/-- True exactly on the cg.add(var.set_...) calls. -/
def isSetterCall : CGCall → Bool
  | CGCall.add _ _ => true
  | _ => false

/-- True exactly on the setter call with the given name. -/
def isSetterNamed (s : String) : CGCall → Bool
  | CGCall.add t _ => t == s
  | _ => false

/-- A minimal accepted raw configuration: only the two required keys
are supplied. -/
def rawMin : RawConfig := fun k =>
  match k with
  | ConfKey.uart_id => some (Value.ref 1)
  | ConfKey.database_path => some (Value.str "/sd/b48.db")
  | _ => none

/-- The validated form of rawMin: every optional key is defaulted. -/
def cfgMin : Config :=
  { uart_id := 1, database_path := "/sd/b48.db", transition_duration := 4,
    time_sync_interval := 60, emergency_priority_threshold := 95,
    run_tests_on_startup := false, wipe_database_on_boot := false,
    display_enable_pin := none, message_queue_size_sensor := none,
    last_message_sensor := none }

example : validate rawMin = some cfgMin := by decide

/-- Inversion for a required field. -/
theorem reqField_eq_some {α : Type} {val : Value → Option α} {v : Option Value} {a : α}
    (h : reqField val v = some a) : ∃ x, v = some x ∧ val x = some a := by
  cases v with
  | none => simp [reqField] at h
  | some x => exact ⟨x, rfl, h⟩

/-- Inversion for an optional field with a default. -/
theorem optFieldD_eq_some {α : Type} {val : Value → Option α} {d : α} {v : Option Value} {a : α}
    (h : optFieldD val d v = some a) :
    (v = none ∧ a = d) ∨ ∃ x, v = some x ∧ val x = some a := by
  cases v with
  | none =>
    simp only [optFieldD, Option.some.injEq] at h
    exact Or.inl ⟨rfl, h.symm⟩
  | some x => exact Or.inr ⟨x, rfl, h⟩

/-- Inversion for an optional field without a default. -/
theorem optField_eq_some {α : Type} {val : Value → Option α} {v : Option Value} {o : Option α}
    (h : optField val v = some o) :
    (v = none ∧ o = none) ∨ ∃ x a, v = some x ∧ val x = some a ∧ o = some a := by
  cases v with
  | none =>
    simp only [optField, Option.some.injEq] at h
    exact Or.inl ⟨rfl, h.symm⟩
  | some x =>
    simp only [optField, Option.map_eq_some'] at h
    obtain ⟨a, ha, rfl⟩ := h
    exact Or.inr ⟨x, a, rfl, ha, rfl⟩

/-- Master inversion of validation: an accepted configuration
determines, key by key, how each raw entry was validated. -/
theorem validate_fields {r : RawConfig} {c : Config} (h : validate r = some c) :
    r ConfKey.min_seconds_between_repeats = none ∧
    reqField cv_use_id (r ConfKey.uart_id) = some c.uart_id ∧
    reqField cv_string (r ConfKey.database_path) = some c.database_path ∧
    optFieldD cv_positive_int 4 (r ConfKey.transition_duration) = some c.transition_duration ∧
    optFieldD cv_positive_int 60 (r ConfKey.time_sync_interval) = some c.time_sync_interval ∧
    optFieldD (cv_int_range 0 100) 95 (r ConfKey.emergency_priority_threshold) = some c.emergency_priority_threshold ∧
    optFieldD cv_boolean false (r ConfKey.run_tests_on_startup) = some c.run_tests_on_startup ∧
    optFieldD cv_boolean false (r ConfKey.wipe_database_on_boot) = some c.wipe_database_on_boot ∧
    optField (cv_int_range 0 39) (r ConfKey.display_enable_pin) = some c.display_enable_pin ∧
    optField cv_use_id (r ConfKey.message_queue_size_sensor) = some c.message_queue_size_sensor ∧
    optField cv_use_id (r ConfKey.last_message_sensor) = some c.last_message_sensor := by
  unfold validate at h
  cases hm : r ConfKey.min_seconds_between_repeats with
  | some v => rw [hm] at h; exact absurd h (by simp)
  | none =>
    rw [hm] at h
    simp only [Option.bind_eq_some] at h
    obtain ⟨u, hu, dbp, hdbp, td, htd, tsi, htsi, ept, hept, rts, hrts, wdb, hwdb,
      dep, hdep, mqs, hmqs, lms, hlms, hc⟩ := h
    injection hc with hc
    subst hc
    exact ⟨rfl, hu, hdbp, htd, htsi, hept, hrts, hwdb, hdep, hmqs, hlms⟩

/-- A configuration lacking the required uart_id key is rejected. -/
theorem validate_none_of_no_uart {r : RawConfig} (h : r ConfKey.uart_id = none) :
    validate r = none := by
  unfold validate
  cases hm : r ConfKey.min_seconds_between_repeats with
  | some v => rfl
  | none => rw [h]; simp [reqField]

/-- A configuration lacking the required database_path key is
rejected. -/
theorem validate_none_of_no_db {r : RawConfig} (h : r ConfKey.database_path = none) :
    validate r = none := by
  unfold validate
  cases hm : r ConfKey.min_seconds_between_repeats with
  | some v => rfl
  | none =>
    rw [h]
    cases hq : reqField cv_use_id (r ConfKey.uart_id) <;> simp [reqField]

/-- The names of the setters invoked by the generated initialization,
in emission order. -/
def setterNames (c : Config) : List String :=
  (toCode c).filterMap (fun k =>
    match k with
    | CGCall.add s _ => some s
    | _ => none)

/-- A raw configuration supplying every key of CONFIG_SCHEMA
explicitly. -/
def rawFull : RawConfig := fun k =>
  match k with
  | ConfKey.uart_id => some (Value.ref 2)
  | ConfKey.database_path => some (Value.str "/sd/messages.db")
  | ConfKey.transition_duration => some (Value.int 7)
  | ConfKey.time_sync_interval => some (Value.int 120)
  | ConfKey.emergency_priority_threshold => some (Value.int 42)
  | ConfKey.run_tests_on_startup => some (Value.boolean true)
  | ConfKey.wipe_database_on_boot => some (Value.boolean true)
  | ConfKey.display_enable_pin => some (Value.int 13)
  | ConfKey.message_queue_size_sensor => some (Value.ref 5)
  | ConfKey.last_message_sensor => some (Value.ref 7)
  | ConfKey.min_seconds_between_repeats => none

/-- The validated form of rawFull. -/
def cfgFull : Config :=
  { uart_id := 2, database_path := "/sd/messages.db", transition_duration := 7,
    time_sync_interval := 120, emergency_priority_threshold := 42,
    run_tests_on_startup := true, wipe_database_on_boot := true,
    display_enable_pin := some 13, message_queue_size_sensor := some 5,
    last_message_sensor := some 7 }

/-- A raw configuration giving both timing keys the value zero. -/
def rawZero : RawConfig := fun k =>
  match k with
  | ConfKey.uart_id => some (Value.ref 1)
  | ConfKey.database_path => some (Value.str "/sd/b48.db")
  | ConfKey.transition_duration => some (Value.int 0)
  | ConfKey.time_sync_interval => some (Value.int 0)
  | _ => none

example : validate rawFull = some cfgFull := by decide
example : (validate rawZero).isSome = true := by decide
example : setterNames cfgMin =
    ["set_uart", "set_database_path", "set_transition_duration",
     "set_time_sync_interval", "set_emergency_priority_threshold",
     "set_run_tests_on_startup", "set_wipe_database_on_boot"] := by decide

/-- The fixed setter calls of to_code are always emitted, each with
the corresponding validated configuration value. -/
theorem toCode_fixed_setters (c : Config) :
    CGCall.add "set_uart" (Value.ref c.uart_id) ∈ toCode c ∧
    CGCall.add "set_database_path" (Value.str c.database_path) ∈ toCode c ∧
    CGCall.add "set_transition_duration" (Value.int c.transition_duration) ∈ toCode c ∧
    CGCall.add "set_time_sync_interval" (Value.int c.time_sync_interval) ∈ toCode c ∧
    CGCall.add "set_emergency_priority_threshold" (Value.int c.emergency_priority_threshold) ∈ toCode c ∧
    CGCall.add "set_run_tests_on_startup" (Value.boolean c.run_tests_on_startup) ∈ toCode c ∧
    CGCall.add "set_wipe_database_on_boot" (Value.boolean c.wipe_database_on_boot) ∈ toCode c := by
  refine ⟨?_, ?_, ?_, ?_, ?_, ?_, ?_⟩ <;> simp [toCode]

/-- Characterization of cv.int_range: it accepts exactly the integers
inside the closed range, returned unchanged. -/
theorem cv_int_range_eq_some {lo hi n : Int} {v : Value} :
    cv_int_range lo hi v = some n ↔ v = Value.int n ∧ lo ≤ n ∧ n ≤ hi := by
  cases v with
  | int m =>
    by_cases hb : lo ≤ m ∧ m ≤ hi
    · simp only [cv_int_range, if_pos hb, Option.some.injEq, Value.int.injEq]
      constructor
      · intro h; subst h; exact ⟨rfl, hb⟩
      · intro h; exact h.1
    · simp only [cv_int_range, if_neg hb]
      constructor
      · intro h; exact Option.noConfusion h
      · intro h
        obtain ⟨h1, h2, h3⟩ := h
        injection h1 with h1
        subst h1
        exact absurd ⟨h2, h3⟩ hb
  | str s => simp [cv_int_range]
  | boolean b => simp [cv_int_range]
  | ref i => simp [cv_int_range]

/-- Characterization of cv.positive_int: it accepts exactly the
integers n with 0 ≤ n (zero included), returned unchanged. -/
theorem cv_positive_int_eq_some {n : Int} {v : Value} :
    cv_positive_int v = some n ↔ v = Value.int n ∧ 0 ≤ n := by
  cases v with
  | int m =>
    by_cases hb : (0 : Int) ≤ m
    · simp only [cv_positive_int, if_pos hb, Option.some.injEq, Value.int.injEq]
      constructor
      · intro h; subst h; exact ⟨rfl, hb⟩
      · intro h; exact h.1
    · simp only [cv_positive_int, if_neg hb]
      constructor
      · intro h; exact Option.noConfusion h
      · intro h
        obtain ⟨h1, h2⟩ := h
        injection h1 with h1
        subst h1
        exact absurd h2 hb
  | str s => simp [cv_positive_int]
  | boolean b => simp [cv_positive_int]
  | ref i => simp [cv_positive_int]

/-- Characterization of cv.string at the typed floor. -/
theorem cv_string_eq_some {s : String} {v : Value} :
    cv_string v = some s ↔ v = Value.str s := by
  cases v <;> simp [cv_string]

/-- Characterization of cv.boolean. -/
theorem cv_boolean_eq_some {b : Bool} {v : Value} :
    cv_boolean v = some b ↔ v = Value.boolean b := by
  cases v <;> simp [cv_boolean]

/-- Characterization of cv.use_id. -/
theorem cv_use_id_eq_some {i : Nat} {v : Value} :
    cv_use_id v = some i ↔ v = Value.ref i := by
  cases v <;> simp [cv_use_id]

/-- No generated setter is named set_min_seconds_between_repeats. -/
theorem setterNames_no_min_seconds (c : Config) :
    "set_min_seconds_between_repeats" ∉ setterNames c := by
  obtain ⟨u, dbp, td, tsi, ept, rts, wdb, dep, mqs, lms⟩ := c
  cases dep <;> cases mqs <;> simp [setterNames, toCode, depCalls, mqsCalls]

/-- The display-enable-pin setter is generated exactly when the
validated configuration carries a pin. -/
theorem setterNames_dep_iff (c : Config) :
    "set_display_enable_pin" ∈ setterNames c ↔ c.display_enable_pin.isSome = true := by
  obtain ⟨u, dbp, td, tsi, ept, rts, wdb, dep, mqs, lms⟩ := c
  cases dep <;> cases mqs <;> simp [setterNames, toCode, depCalls, mqsCalls]

/-- The queue-size-sensor setter is generated exactly when the
validated configuration carries that sensor. -/
theorem setterNames_mqs_iff (c : Config) :
    "set_message_queue_size_sensor" ∈ setterNames c ↔
      c.message_queue_size_sensor.isSome = true := by
  obtain ⟨u, dbp, td, tsi, ept, rts, wdb, dep, mqs, lms⟩ := c
  cases dep <;> cases mqs <;> simp [setterNames, toCode, depCalls, mqsCalls]

/-- The first setter the generated initialization invokes is
set_uart. -/
theorem setterNames_head (c : Config) :
    (setterNames c).head? = some "set_uart" := by
  simp [setterNames, toCode]

/-- A raw configuration with no UART reference. -/
def rawNoUart : RawConfig := fun k =>
  match k with
  | ConfKey.database_path => some (Value.str "/sd/b48.db")
  | _ => none

/-- A raw configuration with no database path. -/
def rawNoDb : RawConfig := fun k =>
  match k with
  | ConfKey.uart_id => some (Value.ref 1)
  | _ => none

/-- Claim C1 is false on the code: the minimal configuration rawMin is
accepted by CONFIG_SCHEMA validation although it contains no
min_seconds_between_repeats entry, so an accepted configuration need
not include that parameter. -/
theorem C1_counterexample :
    (validate rawMin).isSome = true ∧
    rawMin ConfKey.min_seconds_between_repeats = none := by
  decide

/-- Claim C1 (amended): CONFIG_SCHEMA declares no
min_seconds_between_repeats parameter at all.  Every accepted
configuration lacks the key (a configuration supplying it is rejected
as an extra key), and the generated initialization invokes no setter
for it. -/
theorem C1_amended :
    ∀ (r : RawConfig) (c : Config), validate r = some c →
      r ConfKey.min_seconds_between_repeats = none ∧
      "set_min_seconds_between_repeats" ∉ setterNames c := by
  intro r c h
  exact ⟨(validate_fields h).1, setterNames_no_min_seconds c⟩

/-- Witness for C1 (amended) at the minimal accepted
configuration. -/
theorem C1_amended_witness :
    rawMin ConfKey.min_seconds_between_repeats = none ∧
    "set_min_seconds_between_repeats" ∉ setterNames cfgMin :=
  C1_amended rawMin cfgMin (by decide)

/-- Claim C2 fails on the code: the accepted configuration rawFull
configures last_message_sensor (component reference 7), yet the
generated initialization contains no set_last_message_sensor call,
while the queue-size sensor configured the same way is forwarded. -/
theorem C2_code_bug :
    validate rawFull = some cfgFull ∧
    cfgFull.last_message_sensor = some 7 ∧
    "set_last_message_sensor" ∉ setterNames cfgFull ∧
    "set_message_queue_size_sensor" ∈ setterNames cfgFull := by
  refine ⟨by decide, by decide, by decide, by decide⟩

/-- Claim C3: emergency_priority_threshold validation accepts exactly
the integers between 0 and 100 inclusive, returns them unchanged, and
every accepted configuration forwards its threshold through the
set_emergency_priority_threshold call; a threshold supplied in the raw
configuration reaches the controller unchanged. -/
theorem C3_emergency_threshold :
    (∀ n : Int, 0 ≤ n → n ≤ 100 → cv_int_range 0 100 (Value.int n) = some n) ∧
    (∀ (v : Value) (n : Int), cv_int_range 0 100 v = some n →
      v = Value.int n ∧ 0 ≤ n ∧ n ≤ 100) ∧
    (∀ (r : RawConfig) (c : Config), validate r = some c →
      (∀ v, r ConfKey.emergency_priority_threshold = some v →
        ∃ n, v = Value.int n ∧ 0 ≤ n ∧ n ≤ 100 ∧
          c.emergency_priority_threshold = n) ∧
      CGCall.add "set_emergency_priority_threshold"
        (Value.int c.emergency_priority_threshold) ∈ toCode c) := by
  refine ⟨?_, ?_, ?_⟩
  · intro n h1 h2
    exact cv_int_range_eq_some.mpr ⟨rfl, h1, h2⟩
  · intro v n h
    exact cv_int_range_eq_some.mp h
  · intro r c h
    obtain ⟨hmsbr, huart, hdb, htd, htsi, hept, hrts, hwdb, hdep, hmqs, hlms⟩ :=
      validate_fields h
    constructor
    · intro v hv
      rw [hv] at hept
      have hc : cv_int_range 0 100 v = some c.emergency_priority_threshold := hept
      obtain ⟨h1, h2, h3⟩ := cv_int_range_eq_some.mp hc
      exact ⟨c.emergency_priority_threshold, h1, h2, h3, rfl⟩
    · exact (toCode_fixed_setters c).2.2.2.2.1

/-- Witness for C3 at the fully explicit configuration (threshold
42). -/
theorem C3_witness :
    cv_int_range 0 100 (Value.int 50) = some 50 ∧
    (Value.int 50 = Value.int 50 ∧ (0 : Int) ≤ 50 ∧ (50 : Int) ≤ 100) ∧
    (∃ n, Value.int 42 = Value.int n ∧ 0 ≤ n ∧ n ≤ 100 ∧
      cfgFull.emergency_priority_threshold = n) ∧
    CGCall.add "set_emergency_priority_threshold"
      (Value.int cfgFull.emergency_priority_threshold) ∈ toCode cfgFull :=
  ⟨C3_emergency_threshold.1 50 (by decide) (by decide),
   C3_emergency_threshold.2.1 (Value.int 50) 50
     (C3_emergency_threshold.1 50 (by decide) (by decide)),
   (C3_emergency_threshold.2.2 rawFull cfgFull (by decide)).1 (Value.int 42) (by decide),
   (C3_emergency_threshold.2.2 rawFull cfgFull (by decide)).2⟩

/-- Claim C4 is false on the code: the configuration rawZero supplies
the non-positive value 0 for both transition_duration and
time_sync_interval and is nevertheless accepted, because ESPHome
cv.positive_int is int_range(min=0). -/
theorem C4_counterexample :
    (validate rawZero).isSome = true ∧
    rawZero ConfKey.transition_duration = some (Value.int 0) ∧
    rawZero ConfKey.time_sync_interval = some (Value.int 0) := by
  decide

/-- Claim C4 (amended): validation of transition_duration and
time_sync_interval rejects negative or non-integer values but accepts
zero (cv.positive_int is int_range with minimum 0), and for every
accepted configuration the values forwarded via
set_transition_duration and set_time_sync_interval equal the
configured values. -/
theorem C4_amended :
    (∀ n : Int, 0 ≤ n → cv_positive_int (Value.int n) = some n) ∧
    (∀ (v : Value) (n : Int), cv_positive_int v = some n → v = Value.int n ∧ 0 ≤ n) ∧
    (∀ (r : RawConfig) (c : Config), validate r = some c →
      (∀ v, r ConfKey.transition_duration = some v →
        ∃ n, v = Value.int n ∧ 0 ≤ n ∧ c.transition_duration = n) ∧
      (∀ v, r ConfKey.time_sync_interval = some v →
        ∃ n, v = Value.int n ∧ 0 ≤ n ∧ c.time_sync_interval = n) ∧
      CGCall.add "set_transition_duration" (Value.int c.transition_duration) ∈ toCode c ∧
      CGCall.add "set_time_sync_interval" (Value.int c.time_sync_interval) ∈ toCode c) := by
  refine ⟨?_, ?_, ?_⟩
  · intro n h1
    exact cv_positive_int_eq_some.mpr ⟨rfl, h1⟩
  · intro v n h
    exact cv_positive_int_eq_some.mp h
  · intro r c h
    obtain ⟨hmsbr, huart, hdb, htd, htsi, hept, hrts, hwdb, hdep, hmqs, hlms⟩ :=
      validate_fields h
    refine ⟨?_, ?_, (toCode_fixed_setters c).2.2.1, (toCode_fixed_setters c).2.2.2.1⟩
    · intro v hv
      rw [hv] at htd
      have hc : cv_positive_int v = some c.transition_duration := htd
      obtain ⟨h1, h2⟩ := cv_positive_int_eq_some.mp hc
      exact ⟨c.transition_duration, h1, h2, rfl⟩
    · intro v hv
      rw [hv] at htsi
      have hc : cv_positive_int v = some c.time_sync_interval := htsi
      obtain ⟨h1, h2⟩ := cv_positive_int_eq_some.mp hc
      exact ⟨c.time_sync_interval, h1, h2, rfl⟩

/-- Witness for C4 (amended) at the fully explicit configuration
(transition_duration 7, time_sync_interval 120). -/
theorem C4_amended_witness :
    cv_positive_int (Value.int 3) = some 3 ∧
    (Value.int 3 = Value.int 3 ∧ (0 : Int) ≤ 3) ∧
    (∃ n, Value.int 7 = Value.int n ∧ 0 ≤ n ∧ cfgFull.transition_duration = n) ∧
    (∃ n, Value.int 120 = Value.int n ∧ 0 ≤ n ∧ cfgFull.time_sync_interval = n) ∧
    CGCall.add "set_transition_duration" (Value.int cfgFull.transition_duration) ∈ toCode cfgFull ∧
    CGCall.add "set_time_sync_interval" (Value.int cfgFull.time_sync_interval) ∈ toCode cfgFull :=
  ⟨C4_amended.1 3 (by decide),
   C4_amended.2.1 (Value.int 3) 3 (C4_amended.1 3 (by decide)),
   (C4_amended.2.2 rawFull cfgFull (by decide)).1 (Value.int 7) (by decide),
   (C4_amended.2.2 rawFull cfgFull (by decide)).2.1 (Value.int 120) (by decide),
   (C4_amended.2.2 rawFull cfgFull (by decide)).2.2.1,
   (C4_amended.2.2 rawFull cfgFull (by decide)).2.2.2⟩

/-- Claim C5: database_path is required — validation fails when it is
missing; an accepted configuration had a string value there, carried
unchanged into the validated configuration and forwarded through the
set_database_path call. -/
theorem C5_database_path :
    (∀ r : RawConfig, r ConfKey.database_path = none → validate r = none) ∧
    (∀ (r : RawConfig) (c : Config), validate r = some c →
      (∀ v, r ConfKey.database_path = some v → v = Value.str c.database_path) ∧
      CGCall.add "set_database_path" (Value.str c.database_path) ∈ toCode c) := by
  constructor
  · intro r h
    exact validate_none_of_no_db h
  · intro r c h
    obtain ⟨hmsbr, huart, hdb, htd, htsi, hept, hrts, hwdb, hdep, hmqs, hlms⟩ :=
      validate_fields h
    constructor
    · intro v hv
      rw [hv] at hdb
      have hc : cv_string v = some c.database_path := hdb
      exact cv_string_eq_some.mp hc
    · exact (toCode_fixed_setters c).2.1

/-- Witness for C5: a configuration lacking database_path is rejected;
the accepted rawFull forwards its path unchanged. -/
theorem C5_witness :
    validate rawNoDb = none ∧
    Value.str "/sd/messages.db" = Value.str cfgFull.database_path ∧
    CGCall.add "set_database_path" (Value.str cfgFull.database_path) ∈ toCode cfgFull :=
  ⟨C5_database_path.1 rawNoDb rfl,
   (C5_database_path.2 rawFull cfgFull (by decide)).1 (Value.str "/sd/messages.db") (by decide),
   (C5_database_path.2 rawFull cfgFull (by decide)).2⟩

/-- Claim C6: run_tests_on_startup and wipe_database_on_boot hold
boolean values in every accepted configuration (a supplied value must
be a boolean and is carried unchanged), and both are forwarded through
set_run_tests_on_startup and set_wipe_database_on_boot. -/
theorem C6_boolean_flags :
    ∀ (r : RawConfig) (c : Config), validate r = some c →
      (∀ v, r ConfKey.run_tests_on_startup = some v →
        v = Value.boolean c.run_tests_on_startup) ∧
      (∀ v, r ConfKey.wipe_database_on_boot = some v →
        v = Value.boolean c.wipe_database_on_boot) ∧
      CGCall.add "set_run_tests_on_startup" (Value.boolean c.run_tests_on_startup) ∈ toCode c ∧
      CGCall.add "set_wipe_database_on_boot" (Value.boolean c.wipe_database_on_boot) ∈ toCode c := by
  intro r c h
  obtain ⟨hmsbr, huart, hdb, htd, htsi, hept, hrts, hwdb, hdep, hmqs, hlms⟩ :=
    validate_fields h
  refine ⟨?_, ?_, (toCode_fixed_setters c).2.2.2.2.2.1, (toCode_fixed_setters c).2.2.2.2.2.2⟩
  · intro v hv
    rw [hv] at hrts
    have hc : cv_boolean v = some c.run_tests_on_startup := hrts
    exact cv_boolean_eq_some.mp hc
  · intro v hv
    rw [hv] at hwdb
    have hc : cv_boolean v = some c.wipe_database_on_boot := hwdb
    exact cv_boolean_eq_some.mp hc

/-- Witness for C6 at the fully explicit configuration (both flags
true). -/
theorem C6_witness :
    Value.boolean true = Value.boolean cfgFull.run_tests_on_startup ∧
    Value.boolean true = Value.boolean cfgFull.wipe_database_on_boot ∧
    CGCall.add "set_run_tests_on_startup" (Value.boolean cfgFull.run_tests_on_startup) ∈ toCode cfgFull ∧
    CGCall.add "set_wipe_database_on_boot" (Value.boolean cfgFull.wipe_database_on_boot) ∈ toCode cfgFull :=
  ⟨(C6_boolean_flags rawFull cfgFull (by decide)).1 (Value.boolean true) (by decide),
   (C6_boolean_flags rawFull cfgFull (by decide)).2.1 (Value.boolean true) (by decide),
   (C6_boolean_flags rawFull cfgFull (by decide)).2.2.1,
   (C6_boolean_flags rawFull cfgFull (by decide)).2.2.2⟩

/-- Claim C8: omitted optional parameters are filled with the schema
defaults — transition_duration 4, time_sync_interval 60,
emergency_priority_threshold 95, run_tests_on_startup false,
wipe_database_on_boot false — and the defaulted values are forwarded
by the same setter calls as explicitly supplied ones. -/
theorem C8_defaults :
    ∀ (r : RawConfig) (c : Config), validate r = some c →
      (r ConfKey.transition_duration = none → c.transition_duration = 4) ∧
      (r ConfKey.time_sync_interval = none → c.time_sync_interval = 60) ∧
      (r ConfKey.emergency_priority_threshold = none → c.emergency_priority_threshold = 95) ∧
      (r ConfKey.run_tests_on_startup = none → c.run_tests_on_startup = false) ∧
      (r ConfKey.wipe_database_on_boot = none → c.wipe_database_on_boot = false) ∧
      CGCall.add "set_transition_duration" (Value.int c.transition_duration) ∈ toCode c ∧
      CGCall.add "set_time_sync_interval" (Value.int c.time_sync_interval) ∈ toCode c ∧
      CGCall.add "set_emergency_priority_threshold" (Value.int c.emergency_priority_threshold) ∈ toCode c ∧
      CGCall.add "set_run_tests_on_startup" (Value.boolean c.run_tests_on_startup) ∈ toCode c ∧
      CGCall.add "set_wipe_database_on_boot" (Value.boolean c.wipe_database_on_boot) ∈ toCode c := by
  intro r c h
  obtain ⟨hmsbr, huart, hdb, htd, htsi, hept, hrts, hwdb, hdep, hmqs, hlms⟩ :=
    validate_fields h
  obtain ⟨hs1, hs2, hs3, hs4, hs5, hs6, hs7⟩ := toCode_fixed_setters c
  refine ⟨?_, ?_, ?_, ?_, ?_, hs3, hs4, hs5, hs6, hs7⟩
  · intro hv; rw [hv] at htd; exact (Option.some_inj.mp htd).symm
  · intro hv; rw [hv] at htsi; exact (Option.some_inj.mp htsi).symm
  · intro hv; rw [hv] at hept; exact (Option.some_inj.mp hept).symm
  · intro hv; rw [hv] at hrts; exact (Option.some_inj.mp hrts).symm
  · intro hv; rw [hv] at hwdb; exact (Option.some_inj.mp hwdb).symm

/-- Witness for C8 at the minimal configuration, which omits every
optional key. -/
theorem C8_witness :
    cfgMin.transition_duration = 4 ∧
    cfgMin.time_sync_interval = 60 ∧
    cfgMin.emergency_priority_threshold = 95 ∧
    cfgMin.run_tests_on_startup = false ∧
    cfgMin.wipe_database_on_boot = false ∧
    CGCall.add "set_transition_duration" (Value.int cfgMin.transition_duration) ∈ toCode cfgMin ∧
    CGCall.add "set_emergency_priority_threshold" (Value.int cfgMin.emergency_priority_threshold) ∈ toCode cfgMin :=
  ⟨(C8_defaults rawMin cfgMin (by decide)).1 rfl,
   (C8_defaults rawMin cfgMin (by decide)).2.1 rfl,
   (C8_defaults rawMin cfgMin (by decide)).2.2.1 rfl,
   (C8_defaults rawMin cfgMin (by decide)).2.2.2.1 rfl,
   (C8_defaults rawMin cfgMin (by decide)).2.2.2.2.1 rfl,
   (C8_defaults rawMin cfgMin (by decide)).2.2.2.2.2.1,
   (C8_defaults rawMin cfgMin (by decide)).2.2.2.2.2.2.2.1⟩

/-- Claim C9: display_enable_pin is optional with no default — a
supplied value must be an integer between 0 and 39 inclusive and is
kept, an omitted key stays absent, and the generated initialization
invokes set_display_enable_pin exactly when the key was present. -/
theorem C9_display_enable_pin :
    ∀ (r : RawConfig) (c : Config), validate r = some c →
      (∀ v, r ConfKey.display_enable_pin = some v →
        ∃ n, v = Value.int n ∧ 0 ≤ n ∧ n ≤ 39 ∧ c.display_enable_pin = some n) ∧
      (r ConfKey.display_enable_pin = none → c.display_enable_pin = none) ∧
      ("set_display_enable_pin" ∈ setterNames c ↔
        (r ConfKey.display_enable_pin).isSome = true) := by
  intro r c h
  obtain ⟨hmsbr, huart, hdb, htd, htsi, hept, hrts, hwdb, hdep, hmqs, hlms⟩ :=
    validate_fields h
  have hpart1 : ∀ v, r ConfKey.display_enable_pin = some v →
      ∃ n, v = Value.int n ∧ 0 ≤ n ∧ n ≤ 39 ∧ c.display_enable_pin = some n := by
    intro v hv
    rw [hv] at hdep
    have hc : (cv_int_range 0 39 v).map some = some c.display_enable_pin := hdep
    rw [Option.map_eq_some'] at hc
    obtain ⟨a, ha, ha2⟩ := hc
    obtain ⟨h1, h2, h3⟩ := cv_int_range_eq_some.mp ha
    exact ⟨a, h1, h2, h3, ha2.symm⟩
  have hpart2 : r ConfKey.display_enable_pin = none → c.display_enable_pin = none := by
    intro hv
    rw [hv] at hdep
    have hc : (some none : Option (Option Int)) = some c.display_enable_pin := hdep
    exact (Option.some_inj.mp hc).symm
  refine ⟨hpart1, hpart2, ?_⟩
  rw [setterNames_dep_iff c]
  cases hv : r ConfKey.display_enable_pin with
  | none => simp [hpart2 hv]
  | some v =>
    obtain ⟨n, h1, h2, h3, h4⟩ := hpart1 v hv
    simp [h4]

/-- Witness for C9: pin 13 accepted and wired on rawFull; absent pin
stays absent on rawMin. -/
theorem C9_witness :
    (∃ n, Value.int 13 = Value.int n ∧ 0 ≤ n ∧ n ≤ 39 ∧
      cfgFull.display_enable_pin = some n) ∧
    ("set_display_enable_pin" ∈ setterNames cfgFull ↔
      (rawFull ConfKey.display_enable_pin).isSome = true) ∧
    cfgMin.display_enable_pin = none :=
  ⟨(C9_display_enable_pin rawFull cfgFull (by decide)).1 (Value.int 13) (by decide),
   (C9_display_enable_pin rawFull cfgFull (by decide)).2.2,
   (C9_display_enable_pin rawMin cfgMin (by decide)).2.1 rfl⟩

/-- Claim C10: uart_id is required — validation fails without it — and
in the generated initialization the resolved UART reference is passed
by set_uart, which precedes every other controller setter. -/
theorem C10_uart_required_first :
    (∀ r : RawConfig, r ConfKey.uart_id = none → validate r = none) ∧
    (∀ (r : RawConfig) (c : Config), validate r = some c →
      (∀ v, r ConfKey.uart_id = some v → v = Value.ref c.uart_id) ∧
      CGCall.add "set_uart" (Value.ref c.uart_id) ∈ toCode c ∧
      (setterNames c).head? = some "set_uart") := by
  constructor
  · intro r h; exact validate_none_of_no_uart h
  · intro r c h
    obtain ⟨hmsbr, huart, hdb, htd, htsi, hept, hrts, hwdb, hdep, hmqs, hlms⟩ :=
      validate_fields h
    refine ⟨?_, (toCode_fixed_setters c).1, setterNames_head c⟩
    intro v hv
    rw [hv] at huart
    have hc : cv_use_id v = some c.uart_id := huart
    exact cv_use_id_eq_some.mp hc

/-- Witness for C10: a configuration lacking uart_id is rejected; on
rawFull the resolved UART reference is set first. -/
theorem C10_witness :
    validate rawNoUart = none ∧
    Value.ref 2 = Value.ref cfgFull.uart_id ∧
    CGCall.add "set_uart" (Value.ref cfgFull.uart_id) ∈ toCode cfgFull ∧
    (setterNames cfgFull).head? = some "set_uart" :=
  ⟨C10_uart_required_first.1 rawNoUart rfl,
   (C10_uart_required_first.2 rawFull cfgFull (by decide)).1 (Value.ref 2) (by decide),
   (C10_uart_required_first.2 rawFull cfgFull (by decide)).2.1,
   (C10_uart_required_first.2 rawFull cfgFull (by decide)).2.2⟩

/-- Modelled from the spec: the Message record of section 3.  The
Message Store and Scheduler live in the C++ core of the repository,
which is not under src/, so the data model follows the words of the
spec. -/
structure Message where
  id : Nat
  text : String
  priority : Int
  created_at : Int
  last_shown_at : Option Int
  show_count : Nat
  expires_at : Option Int
deriving DecidableEq

/-- Modelled from the spec: is_emergency is derived — priority at or
above emergency_priority_threshold (section 3). -/
def is_emergency (th : Int) (m : Message) : Bool :=
  th ≤ m.priority

/-- Modelled from the spec: a message is a candidate while expires_at
is absent or in the future (section 4.1, get_candidates). -/
def notExpired (now : Int) (m : Message) : Bool :=
  match m.expires_at with
  | none => true
  | some t => now < t

/-- Modelled from the spec: a message satisfies the repeat-interval
constraint when it has never been shown, or its last showing lies at
least min_seconds_between_repeats in the past (section 4.2). -/
def repeatOk (now minRepeat : Int) (m : Message) : Bool :=
  match m.last_shown_at with
  | none => true
  | some t => minRepeat ≤ now - t

/-- Modelled from the spec: selection key (a) — among emergency
candidates, higher priority wins, tie-break older created_at (section
4.2).  The first argument is the challenger, the second the
incumbent. -/
def betterEmergency (a b : Message) : Bool :=
  b.priority < a.priority || (a.priority == b.priority && a.created_at < b.created_at)

/-- Modelled from the spec: never-shown sorts before any shown message
in the last_shown_at order (section 4.2, key (b)). -/
def shownBefore (a b : Message) : Bool :=
  match a.last_shown_at, b.last_shown_at with
  | none, some _ => true
  | some x, some y => x < y
  | _, _ => false

/-- Modelled from the spec: equality in the last_shown_at order used
by key (b) of section 4.2. -/
def shownEq (a b : Message) : Bool :=
  match a.last_shown_at, b.last_shown_at with
  | none, none => true
  | some x, some y => x == y
  | _, _ => false

/-- Modelled from the spec: selection key (b) — among non-emergency
candidates, highest priority, tie-break oldest last_shown_at
(never-shown first), second tie-break oldest created_at (section
4.2). -/
def betterNormal (a b : Message) : Bool :=
  b.priority < a.priority ||
  (a.priority == b.priority &&
    (shownBefore a b || (shownEq a b && a.created_at < b.created_at)))

/-- Picks the best element of a list under a challenger-beats-incumbent
comparison; none on the empty list. -/
def chooseBy (better : Message → Message → Bool) : List Message → Option Message
  | [] => none
  | x :: xs => some (xs.foldl (fun acc m => if better m acc then m else acc) x)

/-- Modelled from the spec: the candidates a tick works on — store
entries whose expiry is absent or in the future (sections 4.1 and
4.2). -/
def storeCandidates (now : Int) (store : List Message) : List Message :=
  store.filter (fun m => notExpired now m)

/-- Modelled from the spec: the eligible emergency candidates of key
(a) — emergency and outside the repeat-suppression window (section
4.2). -/
def emergencyCandidates (th minRepeat now : Int) (store : List Message) : List Message :=
  (storeCandidates now store).filter (fun m => is_emergency th m && repeatOk now minRepeat m)

/-- Modelled from the spec: the eligible non-emergency candidates of
key (b) (section 4.2). -/
def normalCandidates (th minRepeat now : Int) (store : List Message) : List Message :=
  (storeCandidates now store).filter (fun m => !(is_emergency th m) && repeatOk now minRepeat m)

/-- Modelled from the spec: one scheduling decision of section 4.2 on
a tick in IDLE or DISPLAYING state — an eligible emergency message
wins outright under key (a); otherwise an eligible non-emergency
message is picked under key (b); if no message satisfies the
repeat-interval constraint, the currently displayed message is
re-shown unchanged. -/
def selectMessage (th minRepeat now : Int) (curr : Option Message)
    (store : List Message) : Option Message :=
  match chooseBy betterEmergency (emergencyCandidates th minRepeat now store) with
  | some e => some e
  | none =>
    match chooseBy betterNormal (normalCandidates th minRepeat now store) with
    | some b => some b
    | none => curr

/-- The fold used by chooseBy always lands on the seed or a list
element. -/
theorem foldl_pick_mem (f : Message → Message → Bool) :
    ∀ (l : List Message) (x : Message),
      l.foldl (fun acc m => if f m acc then m else acc) x ∈ x :: l := by
  intro l
  induction l with
  | nil => intro x; simp
  | cons b t ih =>
    intro x
    simp only [List.foldl_cons]
    by_cases hf : f b x
    · rw [if_pos hf]
      rcases List.mem_cons.mp (ih b) with h | h
      · exact List.mem_cons.mpr (Or.inr (List.mem_cons.mpr (Or.inl h)))
      · exact List.mem_cons.mpr (Or.inr (List.mem_cons.mpr (Or.inr h)))
    · rw [if_neg hf]
      rcases List.mem_cons.mp (ih x) with h | h
      · exact List.mem_cons.mpr (Or.inl h)
      · exact List.mem_cons.mpr (Or.inr (List.mem_cons.mpr (Or.inr h)))

/-- chooseBy returns an element of its list. -/
theorem chooseBy_mem {better : Message → Message → Bool} {l : List Message}
    {x : Message} (h : chooseBy better l = some x) : x ∈ l := by
  cases l with
  | nil => exact Option.noConfusion h
  | cons y ys =>
    have hx : ys.foldl (fun acc m => if better m acc then m else acc) y = x :=
      Option.some_inj.mp h
    rw [← hx]
    exact foldl_pick_mem better ys y

/-- Claim C7: on a tick at which the store contains a message at or
above the emergency threshold that is unexpired and outside the
repeat-suppression window — in particular on the tick immediately
following its insertion — the Scheduler selects an emergency message:
the selection comes from key (a), so no non-emergency candidate and no
damping of the current display can displace it.  The Scheduler is part
of the C++ core, absent from src/, so the selection rules are modelled
from the spec (section 4.2). -/
theorem C7_emergency_preemption :
    ∀ (th minRepeat now : Int) (curr : Option Message) (store : List Message)
      (m : Message),
      m ∈ store →
      is_emergency th m = true →
      repeatOk now minRepeat m = true →
      notExpired now m = true →
      ∃ e, selectMessage th minRepeat now curr store = some e ∧
        is_emergency th e = true ∧
        repeatOk now minRepeat e = true ∧
        notExpired now e = true := by
  intro th minRepeat now curr store m hm hem hrep hexp
  have hmc : m ∈ storeCandidates now store :=
    List.mem_filter.mpr ⟨hm, hexp⟩
  have hme : m ∈ emergencyCandidates th minRepeat now store :=
    List.mem_filter.mpr ⟨hmc, by simp [hem, hrep]⟩
  cases hch : chooseBy betterEmergency (emergencyCandidates th minRepeat now store) with
  | none =>
    cases hl : emergencyCandidates th minRepeat now store with
    | nil => rw [hl] at hme; exact absurd hme (List.not_mem_nil m)
    | cons a b => rw [hl] at hch; exact Option.noConfusion hch
  | some e =>
    have hmem : e ∈ emergencyCandidates th minRepeat now store := chooseBy_mem hch
    have h1 := List.mem_filter.mp hmem
    have h2 := List.mem_filter.mp h1.1
    have h3 : is_emergency th e = true ∧ repeatOk now minRepeat e = true := by
      have hb := h1.2
      simp only [Bool.and_eq_true] at hb
      exact hb
    refine ⟨e, ?_, h3.1, h3.2, h2.2⟩
    unfold selectMessage
    rw [hch]

/-- Spec section 8 scenario message A: priority 50, inserted at time
0. -/
def msgA : Message :=
  { id := 1, text := "A", priority := 50, created_at := 0,
    last_shown_at := none, show_count := 0, expires_at := none }

/-- Spec section 8 scenario message B: priority 97, inserted at time
5. -/
def msgB : Message :=
  { id := 2, text := "B", priority := 97, created_at := 5,
    last_shown_at := none, show_count := 0, expires_at := none }

example : selectMessage 95 30 6 none [msgA, msgB] = some msgB := by decide

/-- Witness for C7 at the scenario of spec section 8: threshold 95,
repeat window 30, tick at time 6, store holding A (priority 50) and
the fresh emergency B (priority 97). -/
theorem C7_witness :
    msgB ∈ [msgA, msgB] ∧ is_emergency 95 msgB = true ∧
    ∃ e, selectMessage 95 30 6 none [msgA, msgB] = some e ∧
      is_emergency 95 e = true ∧
      repeatOk 6 30 e = true ∧
      notExpired 6 e = true :=
  ⟨by decide, by decide,
   C7_emergency_preemption 95 30 6 none [msgA, msgB] msgB
     (by decide) (by decide) (by decide) (by decide)⟩
